import Mathlib

/-!
Surface lifecycle and frame pacing of simple-wayland-egl (`src/first.cpp`).

A shallow embedding of `first.cpp`.  The program's globals (`wl`, `states`,
`egl`, `_redraw_callback_listener_ptr`) become one record `State`; every
listener and `main` become functions on that record.

Calls into libwayland / EGL / glad are not interpreted: each call is appended
to `State.trace` together with the argument values the program passes (and,
for creating calls, the handle that comes back).  A handle is `Option Obj`,
`none` standing for `nullptr` / `EGL_NO_SURFACE` / `EGL_NO_CONTEXT`.  What a
library does when it is handed a null handle is outside the model; the trace
only shows that the program passed one.  A creating call returns a new
non-null object, except where `Env` lets it fail (surface and context
creation, the configuration list); the messages the server delivers and the
results of the fallible calls are the parameters of a run, collected in `Env`.

Not embedded: the `std::println` diagnostics and the read-only queries that
feed them (`eglQueryString`, `eglGetConfigs`, `eglGetConfigAttrib`,
`eglQuerySurface`, `glGetString`), and the floating-point colour computed in
`on_redraw` (the `glClearColor` call is recorded with the integer timestamp
it is computed from).  `assert` is taken as enabled (no `NDEBUG`).
-/

namespace WaylandEgl

/-! ## Data model -/

/-- Identity of an object created by libwayland or EGL. -/
inductive Obj where
  | wl_display
  | wl_registry
  | wl_compositor (name : Nat)
  | xdg_wm_base (name : Nat)
  | wl_surface
  | xdg_surface
  | xdg_toplevel
  | wl_callback (n : Nat)
  | egl_display
  | egl_config (i : Nat)
  | wl_egl_window
  | egl_surface
  | egl_context
  deriving DecidableEq, Repr

/-- A handle variable of the program: `none` is the null handle. -/
abbrev Ptr := Option Obj

/-- The five listener tables of lines 103-118. -/
inductive Listener where
  | registry_listener
  | wm_base_listener
  | xsurface_listener
  | xtoplevel_listener
  | redraw_callback_listener
  deriving DecidableEq, Repr

/-- One call made by the program into libwayland, EGL, glad or GL, with the
argument values passed.  For GL entry points `loaded` tells whether glad's
function table had been filled (`gladLoadGLLoader`, line 296) when the call
was made. -/
inductive Call where
  | wl_display_connect (ret : Ptr)
  | wl_display_get_registry (display ret : Ptr)
  | wl_registry_add_listener (registry : Ptr) (l : Listener)
  | wl_display_roundtrip (display : Ptr)
  | wl_display_dispatch (display : Ptr)
  | wl_registry_bind (registry : Ptr) (name : Nat) (iface : String) (version : Nat) (ret : Ptr)
  | xdg_wm_base_add_listener (wm_base : Ptr) (l : Listener)
  | xdg_wm_base_pong (wm_base : Ptr) (serial : Nat)
  | wl_compositor_create_surface (compositor ret : Ptr)
  | xdg_wm_base_get_xdg_surface (wm_base surface ret : Ptr)
  | xdg_surface_get_toplevel (xsurface ret : Ptr)
  | xdg_surface_add_listener (xsurface : Ptr) (l : Listener)
  | xdg_toplevel_add_listener (xtoplevel : Ptr) (l : Listener)
  | wl_surface_commit (surface : Ptr)
  | xdg_surface_ack_configure (xsurface : Ptr) (serial : Nat)
  | wl_callback_destroy (callback : Ptr)
  | wl_surface_frame (surface ret : Ptr)
  | wl_callback_add_listener (callback : Ptr) (l : Option Listener)
  | eglGetPlatformDisplay (native ret : Ptr)
  | eglInitialize (dpy : Ptr)
  | eglChooseConfig (dpy : Ptr) (config_size num_config : Nat)
  | wl_egl_window_create (surface : Ptr) (width height : Int) (ret : Ptr)
  | eglCreatePlatformWindowSurface (dpy config window ret : Ptr)
  | eglSurfaceAttrib (dpy surface : Ptr)
  | eglBindAPI
  | eglCreateContext (dpy config ret : Ptr)
  | eglMakeCurrent (dpy draw read ctx : Ptr)
  | gladLoadGLLoader (ok : Bool)
  | wl_egl_window_resize (window : Ptr) (width height dx dy : Int)
  | glViewport (loaded : Bool) (x y width height : Int)
  | glScissor (loaded : Bool) (x y width height : Int)
  | glClearColor (loaded : Bool) (now_time : Nat)
  | glClear (loaded : Bool)
  | eglSwapBuffers (dpy surface : Ptr)
  | eglDestroyContext (dpy ctx : Ptr)
  | eglDestroySurface (dpy surface : Ptr)
  | wl_egl_window_destroy (window : Ptr)
  | eglTerminate (dpy : Ptr)
  | xdg_toplevel_destroy (xtoplevel : Ptr)
  | xdg_surface_destroy (xsurface : Ptr)
  | wl_surface_destroy (surface : Ptr)
  | xdg_wm_base_destroy (wm_base : Ptr)
  | wl_compositor_destroy (compositor : Ptr)
  | wl_registry_destroy (registry : Ptr)
  | wl_display_disconnect (display : Ptr)
  deriving DecidableEq, Repr

/-- The program's global storage (lines 20-53 and 90), plus the call trace.
`next_callback` numbers the objects returned by `wl_surface_frame`, so that
two frame callbacks are never confused. -/
structure State where
  /-- Handle `wl.core.display`. -/
  display : Ptr := none
  /-- Handle `wl.core.registry`. -/
  registry : Ptr := none
  /-- Handle `wl.core.compositor`. -/
  compositor : Ptr := none
  /-- Handle `wl.core.wm_base`. -/
  wm_base : Ptr := none
  /-- Handle `wl.window.surface`. -/
  surface : Ptr := none
  /-- Handle `wl.window.xsurface`. -/
  xsurface : Ptr := none
  /-- Handle `wl.window.xtoplevel`. -/
  xtoplevel : Ptr := none
  /-- Handle `wl.window.redraw_callback`, the pending frame token. -/
  redraw_callback : Ptr := none
  /-- Field `states.width`. -/
  width : Int := 512
  /-- Field `states.height`. -/
  height : Int := 512
  /-- Field `states.is_initial_configured`. -/
  is_initial_configured : Bool := false
  /-- Field `states.running`. -/
  running : Bool := true
  /-- Handle `egl.display`. -/
  egl_display : Ptr := none
  /-- Handle `egl.wl_window`. -/
  egl_wl_window : Ptr := none
  /-- Handle `egl.surface`. -/
  egl_surface : Ptr := none
  /-- Handle `egl.context`. -/
  egl_context : Ptr := none
  /-- Pointer `_redraw_callback_listener_ptr` (line 90). -/
  redraw_callback_listener_ptr : Option Listener := none
  /-- Whether glad's GL function pointers have been loaded. -/
  gl_loaded : Bool := false
  /-- Number of frame callbacks created so far. -/
  next_callback : Nat := 0
  /-- Calls made so far, oldest first. -/
  trace : List Call := []
  deriving DecidableEq, Repr

/-- The function pointers of `callbacks` (lines 43-46). -/
structure Callbacks where
  /-- Pointer `callbacks.on_resize`. -/
  on_resize : State → State
  /-- Pointer `callbacks.on_redraw`. -/
  on_redraw : Nat → State → State

/-- A server message delivered to one of the attached listeners. -/
inductive Event where
  | global (registry : Ptr) (name : Nat) (interface : String) (version : Nat)
  | global_remove (registry : Ptr) (name : Nat)
  | ping (wm_base : Ptr) (serial : Nat)
  | xsurface_configure (xsurface : Ptr) (serial : Nat)
  | xtoplevel_configure (width height : Int)
  | xtoplevel_close
  | frame_done (callback : Ptr) (time : Nat)
  deriving DecidableEq, Repr

/-- Record one library call. -/
def emit (c : Call) (s : State) : State :=
  { s with trace := s.trace ++ [c] }

/-! ## Listeners (lines 56-101) -/

/-- Lines 56-62. -/
def rl_global (registry : Ptr) (name : Nat) (interface : String) (_version : Nat)
    (s : State) : State :=
  if interface = "wl_compositor" then
    emit (.wl_registry_bind registry name "wl_compositor" 4 (some (.wl_compositor name)))
      { s with compositor := some (.wl_compositor name) }
  else if interface = "xdg_wm_base" then
    emit (.wl_registry_bind registry name "xdg_wm_base" 1 (some (.xdg_wm_base name)))
      { s with wm_base := some (.xdg_wm_base name) }
  else s

/-- Line 63. -/
def rl_global_remove (_registry : Ptr) (_name : Nat) (s : State) : State := s

/-- Lines 65-68. -/
def wbl_ping (wm_base : Ptr) (serial : Nat) (s : State) : State :=
  emit (.xdg_wm_base_pong wm_base serial) s

/-- Lines 70-74. -/
def xsl_configure (xsurface : Ptr) (serial : Nat) (s : State) : State :=
  emit (.xdg_surface_ack_configure xsurface serial) { s with is_initial_configured := true }

/-- Lines 76-84. -/
def xtl_configure (cb : Callbacks) (width height : Int) (s : State) : State :=
  if !((width == 0 || height == 0) || (width == s.width && height == s.height)) then
    cb.on_resize { s with width := width, height := height }
  else s

/-- Lines 85-88. -/
def xtl_close (s : State) : State :=
  { s with running := false }

/-- Lines 91-101. -/
def rcl_done (cb : Callbacks) (callback : Ptr) (time : Nat) (s : State) : State :=
  let s := cb.on_redraw time s
  let s := if callback.isSome then emit (.wl_callback_destroy callback) s else s
  let fresh : Ptr := some (.wl_callback s.next_callback)
  let s := emit (.wl_surface_frame s.surface fresh)
    { s with redraw_callback := fresh, next_callback := s.next_callback + 1 }
  let s := emit (.wl_callback_add_listener s.redraw_callback s.redraw_callback_listener_ptr) s
  emit (.wl_surface_commit s.surface) s

/-! ## Application callbacks (lines 128-143) -/

/-- Lines 128-134. -/
def on_resize (s : State) : State :=
  let s := emit (.wl_egl_window_resize s.egl_wl_window s.width s.height 0 0) s
  let s := emit (.glViewport s.gl_loaded 0 0 s.width s.height) s
  emit (.glScissor s.gl_loaded 0 0 s.width s.height) s

/-- Lines 136-143. -/
def on_redraw (now_time : Nat) (s : State) : State :=
  let s := emit (.glClearColor s.gl_loaded now_time) s
  let s := emit (.glClear s.gl_loaded) s
  emit (.eglSwapBuffers s.egl_display s.egl_surface) s

/-- The table installed by `main` at lines 148-149. -/
def callbacks : Callbacks :=
  { on_resize := on_resize, on_redraw := on_redraw }

/-! ## Event dispatch -/

/-- The listener that libwayland invokes for one message. -/
def handle (cb : Callbacks) (s : State) : Event → State
  | .global registry name interface version => rl_global registry name interface version s
  | .global_remove registry name => rl_global_remove registry name s
  | .ping wm_base serial => wbl_ping wm_base serial s
  | .xsurface_configure xsurface serial => xsl_configure xsurface serial s
  | .xtoplevel_configure width height => xtl_configure cb width height s
  | .xtoplevel_close => xtl_close s
  | .frame_done callback time => rcl_done cb callback time s

/-- The listeners run in the order in which the messages were queued. -/
def run_events (cb : Callbacks) (s : State) (evs : List Event) : State :=
  evs.foldl (handle cb) s

/-- One `wl_display_dispatch(wl.core.display)` delivering the batch `evs`. -/
def dispatch (cb : Callbacks) (evs : List Event) (s : State) : State :=
  run_events cb (emit (.wl_display_dispatch s.display) s) evs

/-- One `wl_display_roundtrip(wl.core.display)` delivering the batch `evs`. -/
def roundtrip (cb : Callbacks) (evs : List Event) (s : State) : State :=
  run_events cb (emit (.wl_display_roundtrip s.display) s) evs

/-! ## `main` (lines 145-334) -/

/-- What the outside world supplies to one run of `main`: the message batch
delivered by each blocking call, and the results of the EGL / glad calls that
can fail.  A finite list of batches means that no message arrives after the
last one, so a dispatch call beyond it never returns. -/
structure Env where
  /-- Messages delivered by the round trip of line 155. -/
  roundtrip1 : List Event
  /-- Messages delivered by the round trip of line 158. -/
  roundtrip2 : List Event
  /-- One batch per `wl_display_dispatch` of the start-up wait (line 168). -/
  startup : List (List Event)
  /-- Number of configurations `eglChooseConfig` reports as matching. -/
  num_configs : Nat
  /-- Whether `eglCreatePlatformWindowSurface` returns a surface. -/
  surface_ok : Bool
  /-- Whether `eglCreateContext` returns a context. -/
  context_ok : Bool
  /-- Result of `eglMakeCurrent` at line 294. -/
  make_current_ok : Bool
  /-- Whether `gladLoadGLLoader` returns non-zero. -/
  glad_ok : Bool
  /-- Messages delivered by the round trip of line 313. -/
  roundtrip3 : List Event
  /-- One batch and return value per `wl_display_dispatch` of line 316. -/
  loop : List (List Event × Int)

/-- How a run of `main` ends. -/
inductive Status where
  /-- Control reached the end of `main`. -/
  | exited
  /-- The `assert` at the given source line failed. -/
  | aborted (line : Nat)
  /-- Still inside the start-up wait of lines 167-168. -/
  | waiting_configure
  /-- Still inside the dispatch loop of line 316. -/
  | waiting_dispatch
  deriving DecidableEq, Repr

/-- Final status and storage of a run. -/
structure Outcome where
  /-- How the run ended. -/
  status : Status
  /-- The storage, trace included, when it ended. -/
  state : State
  deriving DecidableEq, Repr

/-- Lines 147 and 151-158. -/
def connect_phase (cb : Callbacks) (env : Env) (s : State) : State :=
  let s := { s with redraw_callback_listener_ptr := some .redraw_callback_listener }
  let s := emit (.wl_display_connect (some .wl_display)) { s with display := some .wl_display }
  let s := emit (.wl_display_get_registry s.display (some .wl_registry))
    { s with registry := some .wl_registry }
  let s := emit (.wl_registry_add_listener s.registry .registry_listener) s
  let s := roundtrip cb env.roundtrip1 s
  let s := emit (.xdg_wm_base_add_listener s.wm_base .wm_base_listener) s
  roundtrip cb env.roundtrip2 s

/-- Lines 160-166. -/
def surface_phase (s : State) : State :=
  let s := emit (.wl_compositor_create_surface s.compositor (some .wl_surface))
    { s with surface := some .wl_surface }
  let s := emit (.xdg_wm_base_get_xdg_surface s.wm_base s.surface (some .xdg_surface))
    { s with xsurface := some .xdg_surface }
  let s := emit (.xdg_surface_get_toplevel s.xsurface (some .xdg_toplevel))
    { s with xtoplevel := some .xdg_toplevel }
  let s := emit (.xdg_surface_add_listener s.xsurface .xsurface_listener) s
  let s := emit (.xdg_toplevel_add_listener s.xtoplevel .xtoplevel_listener) s
  emit (.wl_surface_commit s.surface) s

/-- Lines 167-168: `while (!states.is_initial_configured) wl_display_dispatch(...)`.
The flag tells whether the loop was left; when the batches run out with
`is_initial_configured` still false the program sits in a dispatch call that
never returns. -/
def wait_configured (cb : Callbacks) : State → List (List Event) → Bool × State
  | s, [] =>
    if !s.is_initial_configured then (false, emit (.wl_display_dispatch s.display) s)
    else (true, s)
  | s, evs :: rest =>
    if !s.is_initial_configured then wait_configured cb (dispatch cb evs s) rest
    else (true, s)

/-- Lines 210-211 and 248: the array filled by `eglChooseConfig`. -/
def matched_configs (num_configs : Nat) : List Obj :=
  (List.range num_configs).map Obj.egl_config

/-- Line 248: `EGLConfig config = configs[0]`.  There is no such element when
nothing matched. -/
def selected_config (env : Env) : Ptr :=
  (matched_configs env.num_configs).head?

/-- Lines 174-211: platform display, initialisation, and the two `eglChooseConfig`
calls (count, then fetch). -/
def egl_configure (env : Env) (s : State) : State :=
  let s := emit (.eglGetPlatformDisplay s.display (some .egl_display))
    { s with egl_display := some .egl_display }
  let s := emit (.eglInitialize s.egl_display) s
  let s := emit (.eglChooseConfig s.egl_display 0 env.num_configs) s
  emit (.eglChooseConfig s.egl_display env.num_configs env.num_configs) s

/-- Lines 251-259: the native window and the EGL window surface. -/
def egl_window (env : Env) (s : State) : State :=
  let s := emit (.wl_egl_window_create s.surface s.width s.height (some .wl_egl_window))
    { s with egl_wl_window := some .wl_egl_window }
  let surf : Ptr := if env.surface_ok then some .egl_surface else none
  let s := emit
    (.eglCreatePlatformWindowSurface s.egl_display (selected_config env) s.egl_wl_window surf)
    { s with egl_surface := surf }
  emit (.eglSurfaceAttrib s.egl_display s.egl_surface) s

/-- Lines 281-296: the context, `eglMakeCurrent` and the GL loader, each under its
`assert`.  The first component is the line of a failed `assert`. -/
def egl_context (env : Env) (s : State) : Option Nat × State :=
  let s := emit .eglBindAPI s
  let ctx : Ptr := if env.context_ok then some .egl_context else none
  let s := emit (.eglCreateContext s.egl_display (selected_config env) ctx)
    { s with egl_context := ctx }
  if s.egl_context = none then (some 292, s) else
  let s := emit (.eglMakeCurrent s.egl_display s.egl_surface s.egl_surface s.egl_context) s
  if !env.make_current_ok then (some 294, s) else
  let s := emit (.gladLoadGLLoader env.glad_ok) { s with gl_loaded := env.glad_ok }
  if !env.glad_ok then (some 296, s) else
  (none, s)

/-- Lines 174-296.  The first component is the line of a failed `assert`. -/
def egl_phase (env : Env) (s : State) : Option Nat × State :=
  egl_context env (egl_window env (egl_configure env s))

/-- Lines 312-313: the eager first frame and the round trip after it. -/
def bootstrap (cb : Callbacks) (env : Env) (s : State) : State :=
  roundtrip cb env.roundtrip3 (rcl_done cb none 0 s)

/-- Line 316: `while (states.running and wl_display_dispatch(...) != -1);`.
The flag tells whether the loop was left; when the batches run out with the
loop still going the program sits in a dispatch call that never returns. -/
def main_loop (cb : Callbacks) : State → List (List Event × Int) → Bool × State
  | s, [] =>
    if s.running then (false, emit (.wl_display_dispatch s.display) s) else (true, s)
  | s, b :: rest =>
    if s.running then
      if b.2 != -1 then main_loop cb (dispatch cb b.1 s) rest
      else (true, dispatch cb b.1 s)
    else (true, s)

/-- Lines 319-333. -/
def teardown (s : State) : State :=
  let s := emit (.eglMakeCurrent s.egl_display none none none) s
  let s := emit (.eglDestroyContext s.egl_display s.egl_context) s
  let s := emit (.eglDestroySurface s.egl_display s.egl_surface) s
  let s := emit (.wl_egl_window_destroy s.egl_wl_window) s
  let s := emit (.eglTerminate s.egl_display) s
  let s := emit (.xdg_toplevel_destroy s.xtoplevel) s
  let s := emit (.xdg_surface_destroy s.xsurface) s
  let s := emit (.wl_surface_destroy s.surface) s
  let s := if s.redraw_callback.isSome then emit (.wl_callback_destroy s.redraw_callback) s
    else s
  let s := emit (.xdg_wm_base_destroy s.wm_base) s
  let s := emit (.wl_compositor_destroy s.compositor) s
  let s := emit (.wl_registry_destroy s.registry) s
  emit (.wl_display_disconnect s.display) s

/-- The storage when the start-up wait of lines 167-168 begins. -/
def before_wait (env : Env) : State :=
  surface_phase (connect_phase callbacks env {})

/-- The start-up wait of lines 167-168 in a run: whether it was left, and the storage. -/
def startup_wait (env : Env) : Bool × State :=
  wait_configured callbacks (before_wait env) env.startup

/-- Context binding (lines 174-296) in a run. -/
def context_binding (env : Env) : Option Nat × State :=
  egl_phase env (startup_wait env).2

/-- The storage when the dispatch loop of line 316 is entered. -/
def loop_entry (env : Env) : State :=
  bootstrap callbacks env (context_binding env).2

/-- The dispatch loop of line 316 in a run: whether it was left, and the storage. -/
def loop_result (env : Env) : Bool × State :=
  main_loop callbacks (loop_entry env) env.loop

/-- Lines 145-334. -/
def main (env : Env) : Outcome :=
  if !(startup_wait env).1 then ⟨.waiting_configure, (startup_wait env).2⟩
  else
    match (context_binding env).1 with
    | some line => ⟨.aborted line, (context_binding env).2⟩
    | none =>
      if !(loop_result env).1 then ⟨.waiting_dispatch, (loop_result env).2⟩
      else ⟨.exited, teardown (loop_result env).2⟩

/-- A compositor that advertises both globals, configures the window at its
default size and later closes it. -/
def env_ok : Env where
  roundtrip1 := [.global (some .wl_registry) 1 "wl_compositor" 5,
                 .global (some .wl_registry) 2 "wl_shm" 1,
                 .global (some .wl_registry) 3 "xdg_wm_base" 4]
  roundtrip2 := []
  startup := [[.xtoplevel_configure 0 0, .xsurface_configure (some .xdg_surface) 7]]
  num_configs := 2
  surface_ok := true
  context_ok := true
  make_current_ok := true
  glad_ok := true
  roundtrip3 := []
  loop := [([.frame_done (some (.wl_callback 0)) 16], 1), ([.xtoplevel_close], 1)]

/-! ## Notions used in the statements -/

/-- The pongs in a trace, oldest first: object and serial of each. -/
def pongs (tr : List Call) : List (Ptr × Nat) :=
  tr.filterMap fun c =>
    match c with
    | .xdg_wm_base_pong wm_base serial => some (wm_base, serial)
    | _ => none

/-- The pings in a batch, oldest first: object and serial of each. -/
def pings (evs : List Event) : List (Ptr × Nat) :=
  evs.filterMap fun e =>
    match e with
    | .ping wm_base serial => some (wm_base, serial)
    | _ => none

/-- The `xdg_surface_ack_configure` calls in a trace, oldest first. -/
def acks (tr : List Call) : List (Ptr × Nat) :=
  tr.filterMap fun c =>
    match c with
    | .xdg_surface_ack_configure xsurface serial => some (xsurface, serial)
    | _ => none

/-- The xdg_surface configure messages in a list of messages, oldest first. -/
def configures (evs : List Event) : List (Ptr × Nat) :=
  evs.filterMap fun e =>
    match e with
    | .xsurface_configure xsurface serial => some (xsurface, serial)
    | _ => none

/-- The run `env_ok`, except that the first dispatch of the loop delivers nothing and
returns -1 (the connection failed). -/
def env_dispatch_error : Env :=
  { env_ok with loop := [([], -1)] }

/-- Pairs (parent, child) for the non-null parents of a created, non-null child. -/
def edges_of (parents : List Ptr) (child : Ptr) : List (Obj × Obj) :=
  match child with
  | none => []
  | some c => parents.filterMap fun p => p.map fun o => (o, c)

/-- The pairs (parent, child) a creating call establishes: the call, made on the
object `parent`, returned the new object `child`. -/
def created_from : Call → List (Obj × Obj)
  | .wl_display_get_registry d r => edges_of [d] r
  | .wl_registry_bind r _ _ _ o => edges_of [r] o
  | .wl_compositor_create_surface c r => edges_of [c] r
  | .xdg_wm_base_get_xdg_surface w sf r => edges_of [w, sf] r
  | .xdg_surface_get_toplevel x r => edges_of [x] r
  | .wl_surface_frame sf r => edges_of [sf] r
  | .eglGetPlatformDisplay n r => edges_of [n] r
  | .wl_egl_window_create sf _ _ r => edges_of [sf] r
  | .eglCreatePlatformWindowSurface d _ w r => edges_of [d, w] r
  | .eglCreateContext d _ r => edges_of [d] r
  | _ => []

/-- The twelve handle variables of `wl` and `egl`. -/
inductive Var where
  | display | registry | compositor | wm_base
  | surface | xsurface | xtoplevel | redraw_callback
  | egl_display | egl_wl_window | egl_surface | egl_context
  deriving DecidableEq, Repr

/-- The current value of a handle variable. -/
def State.var (s : State) : Var → Ptr
  | .display => s.display
  | .registry => s.registry
  | .compositor => s.compositor
  | .wm_base => s.wm_base
  | .surface => s.surface
  | .xsurface => s.xsurface
  | .xtoplevel => s.xtoplevel
  | .redraw_callback => s.redraw_callback
  | .egl_display => s.egl_display
  | .egl_wl_window => s.egl_wl_window
  | .egl_surface => s.egl_surface
  | .egl_context => s.egl_context

/-- For each creating call of the source, the variable holding the object the call is
made on and the variable receiving the result: lines 152, 59, 61, 160, 161, 161, 162,
97, 174, 251, 258, 258, 291. -/
def var_created_from : List (Var × Var) :=
  [(.display, .registry), (.registry, .compositor), (.registry, .wm_base),
   (.compositor, .surface), (.wm_base, .xsurface), (.surface, .xsurface),
   (.xsurface, .xtoplevel), (.surface, .redraw_callback), (.display, .egl_display),
   (.surface, .egl_wl_window), (.egl_display, .egl_surface),
   (.egl_wl_window, .egl_surface), (.egl_display, .egl_context)]

/-- The width and height a call passes, if it passes a size, are strictly positive. -/
def pos_dims : Call → Prop
  | .wl_egl_window_create _ w h _ => 0 < w ∧ 0 < h
  | .wl_egl_window_resize _ w h _ _ => 0 < w ∧ 0 < h
  | .glViewport _ _ _ w h => 0 < w ∧ 0 < h
  | .glScissor _ _ _ w h => 0 < w ∧ 0 < h
  | _ => True

/-- A top-level configure carries a non-negative width and height. -/
def nonneg_event : Event → Prop
  | .xtoplevel_configure w h => 0 ≤ w ∧ 0 ≤ h
  | _ => True

/-- Every top-level configure the run receives carries a non-negative size. -/
def env_nonneg (env : Env) : Prop :=
  (∀ e ∈ env.roundtrip1, nonneg_event e) ∧ (∀ e ∈ env.roundtrip2, nonneg_event e) ∧
  (∀ evs ∈ env.startup, ∀ e ∈ evs, nonneg_event e) ∧
  (∀ e ∈ env.roundtrip3, nonneg_event e) ∧
  ∀ b ∈ env.loop, ∀ e ∈ b.1, nonneg_event e

/-- Geometry is strictly positive and so is every size passed so far. -/
def geometry_ok (s : State) : Prop :=
  0 < s.width ∧ 0 < s.height ∧ ∀ c ∈ s.trace, pos_dims c

/-- Scenario 1: both globals are advertised, and the first dispatch of the start-up wait
delivers xdg_surface configure(serial 7) followed by top-level configure(300, 300). -/
def env_scenario1 : Env :=
  { env_ok with
    startup := [[.xsurface_configure (some .xdg_surface) 7, .xtoplevel_configure 300 300]] }

/-- The registry advertises `wl_compositor` but no `xdg_wm_base`. -/
def env_no_wm_base : Env :=
  { env_ok with roundtrip1 := [.global (some .wl_registry) 1 "wl_compositor" 5] }

/-- No configuration matches; EGL then gives neither a surface nor a context. -/
def env_no_config : Env :=
  { env_ok with num_configs := 0, surface_ok := false, context_ok := false }

/-- Surface creation returns `EGL_NO_SURFACE`; everything else succeeds. -/
def env_no_surface : Env :=
  { env_ok with surface_ok := false }

/-- Context creation returns `EGL_NO_CONTEXT`. -/
def env_no_context : Env :=
  { env_ok with context_ok := false }

/-! ## Basic facts about the trace -/

/-- Recording a call leaves `display` alone. -/
@[simp]
theorem emit_display (c : Call) (s : State) : (emit c s).display = s.display := rfl

/-- Recording a call leaves `registry` alone. -/
@[simp]
theorem emit_registry (c : Call) (s : State) : (emit c s).registry = s.registry := rfl

/-- Recording a call leaves `compositor` alone. -/
@[simp]
theorem emit_compositor (c : Call) (s : State) : (emit c s).compositor = s.compositor := rfl

/-- Recording a call leaves `wm_base` alone. -/
@[simp]
theorem emit_wm_base (c : Call) (s : State) : (emit c s).wm_base = s.wm_base := rfl

/-- Recording a call leaves `surface` alone. -/
@[simp]
theorem emit_surface (c : Call) (s : State) : (emit c s).surface = s.surface := rfl

/-- Recording a call leaves `xsurface` alone. -/
@[simp]
theorem emit_xsurface (c : Call) (s : State) : (emit c s).xsurface = s.xsurface := rfl

/-- Recording a call leaves `xtoplevel` alone. -/
@[simp]
theorem emit_xtoplevel (c : Call) (s : State) : (emit c s).xtoplevel = s.xtoplevel := rfl

/-- Recording a call leaves `redraw_callback` alone. -/
@[simp]
theorem emit_redraw_callback (c : Call) (s : State) : (emit c s).redraw_callback = s.redraw_callback := rfl

/-- Recording a call leaves `width` alone. -/
@[simp]
theorem emit_width (c : Call) (s : State) : (emit c s).width = s.width := rfl

/-- Recording a call leaves `height` alone. -/
@[simp]
theorem emit_height (c : Call) (s : State) : (emit c s).height = s.height := rfl

/-- Recording a call leaves `is_initial_configured` alone. -/
@[simp]
theorem emit_is_initial_configured (c : Call) (s : State) : (emit c s).is_initial_configured = s.is_initial_configured := rfl

/-- Recording a call leaves `running` alone. -/
@[simp]
theorem emit_running (c : Call) (s : State) : (emit c s).running = s.running := rfl

/-- Recording a call leaves `egl_display` alone. -/
@[simp]
theorem emit_egl_display (c : Call) (s : State) : (emit c s).egl_display = s.egl_display := rfl

/-- Recording a call leaves `egl_wl_window` alone. -/
@[simp]
theorem emit_egl_wl_window (c : Call) (s : State) : (emit c s).egl_wl_window = s.egl_wl_window := rfl

/-- Recording a call leaves `egl_surface` alone. -/
@[simp]
theorem emit_egl_surface (c : Call) (s : State) : (emit c s).egl_surface = s.egl_surface := rfl

/-- Recording a call leaves `egl_context` alone. -/
@[simp]
theorem emit_egl_context (c : Call) (s : State) : (emit c s).egl_context = s.egl_context := rfl

/-- Recording a call leaves `redraw_callback_listener_ptr` alone. -/
@[simp]
theorem emit_redraw_callback_listener_ptr (c : Call) (s : State) : (emit c s).redraw_callback_listener_ptr = s.redraw_callback_listener_ptr := rfl

/-- Recording a call leaves `gl_loaded` alone. -/
@[simp]
theorem emit_gl_loaded (c : Call) (s : State) : (emit c s).gl_loaded = s.gl_loaded := rfl

/-- Recording a call leaves `next_callback` alone. -/
@[simp]
theorem emit_next_callback (c : Call) (s : State) : (emit c s).next_callback = s.next_callback := rfl

/-- Recording a call appends it to the trace. -/
@[simp]
theorem emit_trace (c : Call) (s : State) : (emit c s).trace = s.trace ++ [c] := rfl

/-- The calls `on_resize` makes, in order. -/
theorem on_resize_eq (s : State) :
    on_resize s =
      { s with
        trace := s.trace ++ [.wl_egl_window_resize s.egl_wl_window s.width s.height 0 0,
                             .glViewport s.gl_loaded 0 0 s.width s.height,
                             .glScissor s.gl_loaded 0 0 s.width s.height] } := by
  simp [on_resize, emit]

/-- The calls `on_redraw` makes, in order. -/
theorem on_redraw_eq (t : Nat) (s : State) :
    on_redraw t s =
      { s with
        trace := s.trace ++ [.glClearColor s.gl_loaded t, .glClear s.gl_loaded,
                             .eglSwapBuffers s.egl_display s.egl_surface] } := by
  simp [on_redraw, emit]

/-- Closed form of `rcl_done` for an arbitrary render callback. -/
theorem rcl_done_eq (cb : Callbacks) (callback : Ptr) (t : Nat) (s : State) :
    rcl_done cb callback t s =
      { cb.on_redraw t s with
        redraw_callback := some (.wl_callback (cb.on_redraw t s).next_callback)
        next_callback := (cb.on_redraw t s).next_callback + 1
        trace := (cb.on_redraw t s).trace ++
          ((if callback.isSome then [Call.wl_callback_destroy callback] else []) ++
          [.wl_surface_frame (cb.on_redraw t s).surface
              (some (.wl_callback (cb.on_redraw t s).next_callback)),
           .wl_callback_add_listener (some (.wl_callback (cb.on_redraw t s).next_callback))
              (cb.on_redraw t s).redraw_callback_listener_ptr,
           .wl_surface_commit (cb.on_redraw t s).surface]) } := by
  cases callback <;> simp [rcl_done, emit]

/-- C2: a top-level configure with a zero width, a zero height, or the size Geometry
already has returns the storage unchanged, whatever the resize callback is: the
callback is not called, so Geometry, both flags and the trace stay as they were. -/
theorem xtl_configure_noop (cb : Callbacks) (s : State) (W H : Int)
    (h : W = 0 ∨ H = 0 ∨ (W = s.width ∧ H = s.height)) :
    xtl_configure cb W H s = s ∧ handle cb s (.xtoplevel_configure W H) = s := by
  have hguard : (!((W == 0 || H == 0) || (W == s.width && H == s.height))) = false := by
    rcases h with h | h | ⟨h1, h2⟩
    · simp [h]
    · simp [h]
    · simp [h1, h2]
  have h1 : xtl_configure cb W H s = s := by
    simp only [xtl_configure, hguard, Bool.false_eq_true, if_false]
  exact ⟨h1, h1⟩

/-- C2 at three events: zero width, zero height, and the current size. -/
theorem xtl_configure_noop_witness :
    xtl_configure callbacks 0 700 {} = {} ∧ xtl_configure callbacks 700 0 {} = {} ∧
    xtl_configure callbacks 512 512 {} = {} :=
  ⟨(xtl_configure_noop callbacks {} 0 700 (Or.inl rfl)).1,
   (xtl_configure_noop callbacks {} 700 0 (Or.inr (Or.inl rfl))).1,
   (xtl_configure_noop callbacks {} 512 512 (Or.inr (Or.inr ⟨rfl, rfl⟩))).1⟩

/-! ## The frame-done listener pointer -/

/-- No listener writes `_redraw_callback_listener_ptr`. -/
theorem handle_listener_ptr (s : State) (e : Event) :
    (handle callbacks s e).redraw_callback_listener_ptr = s.redraw_callback_listener_ptr := by
  cases e
  case global registry name interface version =>
    simp only [handle, rl_global]
    split
    · rfl
    · split <;> rfl
  case global_remove => rfl
  case ping => rfl
  case xsurface_configure => rfl
  case xtoplevel_configure width height =>
    simp only [handle, xtl_configure, callbacks, on_resize_eq]
    split <;> rfl
  case xtoplevel_close => rfl
  case frame_done callback time =>
    simp only [handle, rcl_done_eq, callbacks, on_redraw_eq]

/-- A batch leaves `_redraw_callback_listener_ptr` alone. -/
theorem run_events_listener_ptr (evs : List Event) (s : State) :
    (run_events callbacks s evs).redraw_callback_listener_ptr =
      s.redraw_callback_listener_ptr := by
  induction evs generalizing s with
  | nil => rfl
  | cons e rest ih =>
    have hstep : run_events callbacks s (e :: rest) =
        run_events callbacks (handle callbacks s e) rest := rfl
    rw [hstep, ih, handle_listener_ptr]

/-- The start-up wait leaves `_redraw_callback_listener_ptr` alone. -/
theorem wait_configured_listener_ptr (batches : List (List Event)) (s : State) :
    (wait_configured callbacks s batches).2.redraw_callback_listener_ptr =
      s.redraw_callback_listener_ptr := by
  induction batches generalizing s with
  | nil => cases hc : s.is_initial_configured <;> simp [wait_configured, hc]
  | cons evs rest ih =>
    cases hc : s.is_initial_configured
    · have hw : wait_configured callbacks s (evs :: rest) =
          wait_configured callbacks (dispatch callbacks evs s) rest := by
        simp [wait_configured, hc]
      rw [hw, ih, dispatch, run_events_listener_ptr]
      rfl
    · simp [wait_configured, hc]

/-- When the eager first frame of line 312 runs, `_redraw_callback_listener_ptr` points
to `redraw_callback_listener` (set at line 147). -/
theorem context_binding_listener_ptr (env : Env) :
    (context_binding env).2.redraw_callback_listener_ptr =
      some .redraw_callback_listener := by
  have hR : ∀ (evs : List Event) (s : State),
      (roundtrip callbacks evs s).redraw_callback_listener_ptr =
        s.redraw_callback_listener_ptr := by
    intro evs s
    rw [roundtrip, run_events_listener_ptr]
    rfl
  have hb : (before_wait env).redraw_callback_listener_ptr =
      some .redraw_callback_listener := by
    simp only [before_wait, surface_phase, connect_phase, emit_redraw_callback_listener_ptr, hR]
  have hw : (startup_wait env).2.redraw_callback_listener_ptr =
      some .redraw_callback_listener := by
    rw [startup_wait, wait_configured_listener_ptr, hb]
  rw [context_binding, ← hw]
  simp only [egl_phase, egl_context, egl_window, egl_configure]
  split_ifs <;> simp only [emit_redraw_callback_listener_ptr]

/-! ## Frame pacing (C5) -/

/-- C5: for every callback argument and timestamp t, `rcl_done` first runs the render
callback once with t, then destroys the callback it was given exactly when that is
non-null, then requests one new frame callback on the window surface, stores it as
the pending token, attaches the listener held in `_redraw_callback_listener_ptr` to
it, and commits the surface last.  With the program's own `on_redraw` this is the
call sequence shown, and for the bootstrap call `rcl_done(nullptr, nullptr, 0)` it
contains no destroy.  No listener changes `_redraw_callback_listener_ptr`, and in a
run of `main` it points to the frame-done listener when the bootstrap call is made. -/
theorem rcl_done_renders_then_rearms (cb : Callbacks) (callback : Ptr) (t : Nat) (s : State) :
    rcl_done cb callback t s =
      { cb.on_redraw t s with
        redraw_callback := some (.wl_callback (cb.on_redraw t s).next_callback)
        next_callback := (cb.on_redraw t s).next_callback + 1
        trace := (cb.on_redraw t s).trace ++
          ((if callback.isSome then [Call.wl_callback_destroy callback] else []) ++
          [.wl_surface_frame (cb.on_redraw t s).surface
              (some (.wl_callback (cb.on_redraw t s).next_callback)),
           .wl_callback_add_listener (some (.wl_callback (cb.on_redraw t s).next_callback))
              (cb.on_redraw t s).redraw_callback_listener_ptr,
           .wl_surface_commit (cb.on_redraw t s).surface]) } ∧
    handle callbacks s (.frame_done callback t) =
      { s with
        redraw_callback := some (.wl_callback s.next_callback)
        next_callback := s.next_callback + 1
        trace := s.trace ++
          ([.glClearColor s.gl_loaded t, .glClear s.gl_loaded,
            .eglSwapBuffers s.egl_display s.egl_surface] ++
          ((if callback.isSome then [Call.wl_callback_destroy callback] else []) ++
          [.wl_surface_frame s.surface (some (.wl_callback s.next_callback)),
           .wl_callback_add_listener (some (.wl_callback s.next_callback))
              s.redraw_callback_listener_ptr,
           .wl_surface_commit s.surface])) } ∧
    rcl_done callbacks none 0 s =
      { s with
        redraw_callback := some (.wl_callback s.next_callback)
        next_callback := s.next_callback + 1
        trace := s.trace ++
          [.glClearColor s.gl_loaded 0, .glClear s.gl_loaded,
           .eglSwapBuffers s.egl_display s.egl_surface,
           .wl_surface_frame s.surface (some (.wl_callback s.next_callback)),
           .wl_callback_add_listener (some (.wl_callback s.next_callback))
              s.redraw_callback_listener_ptr,
           .wl_surface_commit s.surface] } ∧
    (∀ e : Event,
      (handle callbacks s e).redraw_callback_listener_ptr = s.redraw_callback_listener_ptr) ∧
    ∀ env : Env,
      (context_binding env).2.redraw_callback_listener_ptr =
        some .redraw_callback_listener := by
  refine ⟨rcl_done_eq cb callback t s, ?_, ?_, handle_listener_ptr s,
    context_binding_listener_ptr⟩
  · show rcl_done callbacks callback t s = _
    rw [rcl_done_eq]
    simp [callbacks, on_redraw_eq]
  · rw [rcl_done_eq]
    simp [callbacks, on_redraw_eq]

/-! ## Ping (C9) -/

/-- Handling one message adds a pong exactly when the message is a ping. -/
theorem handle_pongs (s : State) (e : Event) :
    pongs (handle callbacks s e).trace = pongs s.trace ++ pings [e] := by
  cases e
  case global registry name interface version =>
    simp only [handle, rl_global, emit]
    split
    · simp [pongs, pings]
    · split <;> simp [pongs, pings]
  case global_remove => simp [handle, rl_global_remove, pings]
  case ping => simp [handle, wbl_ping, emit, pongs, pings]
  case xsurface_configure => simp [handle, xsl_configure, emit, pongs, pings]
  case xtoplevel_configure width height =>
    simp only [handle, xtl_configure, callbacks, on_resize_eq]
    split <;> simp [pongs, pings]
  case xtoplevel_close => simp [handle, xtl_close, pings]
  case frame_done callback time =>
    simp only [handle, rcl_done_eq, callbacks, on_redraw_eq]
    cases callback <;> simp [pongs, pings]

/-- Handling a batch adds one pong per ping, in order. -/
theorem run_events_pongs (evs : List Event) (s : State) :
    pongs (run_events callbacks s evs).trace = pongs s.trace ++ pings evs := by
  induction evs generalizing s with
  | nil => simp [run_events, pings]
  | cons e rest ih =>
    have : run_events callbacks s (e :: rest) = run_events callbacks (handle callbacks s e) rest :=
      rfl
    rw [this, ih, handle_pongs, List.append_assoc]
    simp only [pings, ← List.filterMap_append, List.singleton_append]

/-- C9: the ping handler appends exactly one `xdg_wm_base_pong` with the object and the
serial of the ping and changes nothing else in the storage; and a dispatch call that
delivers any batch has, when it returns, sent one pong per ping of the batch, each
with the serial and object of its ping, in the order of arrival, wherever the pings
stand in the batch. -/
theorem wbl_ping_answers (cb : Callbacks) (s : State) (wm_base : Ptr) (serial : Nat) :
    handle cb s (.ping wm_base serial) =
      { s with trace := s.trace ++ [.xdg_wm_base_pong wm_base serial] } ∧
    (∀ before after : List Event,
      pongs (dispatch callbacks (before ++ .ping wm_base serial :: after) s).trace =
        pongs s.trace ++ pings before ++ (wm_base, serial) :: pings after) ∧
    ∀ batch : List Event,
      pongs (dispatch callbacks batch s).trace = pongs s.trace ++ pings batch := by
  have hd : ∀ batch : List Event,
      pongs (dispatch callbacks batch s).trace = pongs s.trace ++ pings batch := by
    intro batch
    simp only [dispatch, run_events_pongs]
    simp [emit, pongs]
  refine ⟨rfl, ?_, hd⟩
  intro before after
  rw [hd]
  simp [pings, List.filterMap_append]

/-! ## Configure handshake (C3) -/

/-- Appending messages appends their configures. -/
theorem configures_append (a b : List Event) :
    configures (a ++ b) = configures a ++ configures b := by
  simp only [configures, List.filterMap_append]

/-- Recording a call other than an ack leaves the acks as they were. -/
theorem acks_emit (c : Call) (s : State) (h : acks [c] = []) :
    acks (emit c s).trace = acks s.trace := by
  have : acks (s.trace ++ [c]) = acks s.trace ++ acks [c] := by
    simp only [acks, List.filterMap_append]
  simp only [emit, this, h, List.append_nil]

/-- Handling one message adds an ack, and sets the flag, exactly when the message is
an xdg_surface configure. -/
theorem handle_acks (s : State) (e : Event) :
    acks (handle callbacks s e).trace = acks s.trace ++ configures [e] ∧
    (handle callbacks s e).is_initial_configured =
      (s.is_initial_configured || !(configures [e]).isEmpty) := by
  cases e
  case global registry name interface version =>
    simp only [handle, rl_global, emit]
    split
    · simp [acks, configures]
    · split <;> simp [acks, configures]
  case global_remove => simp [handle, rl_global_remove, configures]
  case ping => simp [handle, wbl_ping, emit, acks, configures]
  case xsurface_configure => simp [handle, xsl_configure, emit, acks, configures]
  case xtoplevel_configure width height =>
    simp only [handle, xtl_configure, callbacks, on_resize_eq]
    split <;> simp [acks, configures]
  case xtoplevel_close => simp [handle, xtl_close, configures]
  case frame_done callback time =>
    simp only [handle, rcl_done_eq, callbacks, on_redraw_eq]
    cases callback <;> simp [acks, configures]

/-- Handling a batch adds one ack per xdg_surface configure, in order, and sets the
flag exactly when the batch holds such a message. -/
theorem run_events_acks (evs : List Event) (s : State) :
    acks (run_events callbacks s evs).trace = acks s.trace ++ configures evs ∧
    (run_events callbacks s evs).is_initial_configured =
      (s.is_initial_configured || !(configures evs).isEmpty) := by
  induction evs generalizing s with
  | nil => simp [run_events, configures]
  | cons e rest ih =>
    have hstep : run_events callbacks s (e :: rest) =
        run_events callbacks (handle callbacks s e) rest := rfl
    have hcons : configures (e :: rest) = configures [e] ++ configures rest :=
      configures_append [e] rest
    obtain ⟨h1, h2⟩ := handle_acks s e
    obtain ⟨h3, h4⟩ := ih (handle callbacks s e)
    rw [hstep, h3, h4, h1, h2, hcons, List.append_assoc]
    refine ⟨rfl, ?_⟩
    cases s.is_initial_configured <;> cases configures [e] <;> simp

/-- The same for one dispatch call. -/
theorem dispatch_acks (evs : List Event) (s : State) :
    acks (dispatch callbacks evs s).trace = acks s.trace ++ configures evs ∧
    (dispatch callbacks evs s).is_initial_configured =
      (s.is_initial_configured || !(configures evs).isEmpty) := by
  obtain ⟨h1, h2⟩ := run_events_acks evs (emit (.wl_display_dispatch s.display) s)
  exact ⟨by rw [dispatch, h1, acks_emit (.wl_display_dispatch s.display) s rfl],
    by rw [dispatch, h2]; rfl⟩

/-- The same for one round trip. -/
theorem roundtrip_acks (evs : List Event) (s : State) :
    acks (roundtrip callbacks evs s).trace = acks s.trace ++ configures evs ∧
    (roundtrip callbacks evs s).is_initial_configured =
      (s.is_initial_configured || !(configures evs).isEmpty) := by
  obtain ⟨h1, h2⟩ := run_events_acks evs (emit (.wl_display_roundtrip s.display) s)
  exact ⟨by rw [roundtrip, h1, acks_emit (.wl_display_roundtrip s.display) s rfl],
    by rw [roundtrip, h2]; rfl⟩

/-- The start-up wait: the messages it has consumed are a prefix of those offered, it
has acknowledged exactly their configures, and it is left only with the flag set. -/
theorem wait_configured_acks (batches : List (List Event)) (s : State) :
    ∃ received : List Event, received <+: batches.flatten ∧
      acks (wait_configured callbacks s batches).2.trace = acks s.trace ++ configures received ∧
      (wait_configured callbacks s batches).2.is_initial_configured =
        (s.is_initial_configured || !(configures received).isEmpty) ∧
      ((wait_configured callbacks s batches).1 = true →
        (wait_configured callbacks s batches).2.is_initial_configured = true) := by
  induction batches generalizing s with
  | nil =>
    refine ⟨[], List.nil_prefix, ?_⟩
    cases hc : s.is_initial_configured <;>
      simp [wait_configured, hc, configures, emit, acks]
  | cons evs rest ih =>
    cases hc : s.is_initial_configured
    · obtain ⟨rec, hpre, h1, h2, h3⟩ := ih (dispatch callbacks evs s)
      obtain ⟨d1, d2⟩ := dispatch_acks evs s
      have hw : wait_configured callbacks s (evs :: rest) =
          wait_configured callbacks (dispatch callbacks evs s) rest := by
        simp [wait_configured, hc]
      refine ⟨evs ++ rec, ?_, ?_, ?_, ?_⟩
      · rw [List.flatten_cons]
        exact (List.prefix_append_right_inj evs).mpr hpre
      · rw [hw, h1, d1, configures_append, List.append_assoc]
      · rw [hw, h2, d2, hc, configures_append]
        cases configures evs <;> simp
      · rw [hw]
        exact h3
    · refine ⟨[], List.nil_prefix, ?_⟩
      simp [wait_configured, hc, configures]

/-- Acks and flag when the start-up wait begins: only the two round trips of lines 155
and 158 can have delivered anything. -/
theorem before_wait_acks (env : Env) :
    acks (before_wait env).trace = configures (env.roundtrip1 ++ env.roundtrip2) ∧
    (before_wait env).is_initial_configured =
      !(configures (env.roundtrip1 ++ env.roundtrip2)).isEmpty := by
  have hA : ∀ (c : Call) (s : State), acks (emit c s).trace = acks s.trace ++ acks [c] := by
    intro c s
    simp only [emit, acks, List.filterMap_append]
  have hF : ∀ (c : Call) (s : State),
      (emit c s).is_initial_configured = s.is_initial_configured := fun _ _ => rfl
  constructor
  · simp only [before_wait, surface_phase, connect_phase, hA, (roundtrip_acks _ _).1,
      configures_append]
    simp [acks]
  · simp only [before_wait, surface_phase, connect_phase, hF, (roundtrip_acks _ _).2,
      configures_append]
    cases configures env.roundtrip1 <;> cases configures env.roundtrip2 <;> simp

/-- C3: at every point between two messages the acks sent are exactly the xdg_surface
configure messages received, one each, in order, each with the object and serial of
its message, and `is_initial_configured` is true only if at least one such message
has been received (hence acknowledged); a message of any other kind neither sets
the flag nor sends an ack; and in a run of `main` the start-up wait is left only with
the flag set, after at least one configure has been received and acknowledged. -/
theorem configured_only_after_acks (env : Env) :
    (∀ evs : List Event,
      acks (run_events callbacks {} evs).trace = configures evs ∧
      ((run_events callbacks {} evs).is_initial_configured = true → configures evs ≠ [])) ∧
    (∀ (s : State) (e : Event), configures [e] = [] →
      (handle callbacks s e).is_initial_configured = s.is_initial_configured ∧
      acks (handle callbacks s e).trace = acks s.trace) ∧
    (∀ (s : State) (xsurface : Ptr) (serial : Nat),
      handle callbacks s (.xsurface_configure xsurface serial) =
        { s with
          is_initial_configured := true
          trace := s.trace ++ [.xdg_surface_ack_configure xsurface serial] }) ∧
    ∃ received : List Event,
      received <+: env.roundtrip1 ++ env.roundtrip2 ++ env.startup.flatten ∧
      acks (startup_wait env).2.trace =
        configures received ∧
      ((startup_wait env).1 = true →
        (startup_wait env).2.is_initial_configured = true ∧
        configures received ≠ []) := by
  refine ⟨?_, ?_, ?_, ?_⟩
  · intro evs
    obtain ⟨h1, h2⟩ := run_events_acks evs {}
    refine ⟨by rw [h1]; rfl, ?_⟩
    rw [h2]
    cases configures evs <;> simp
  · intro s e he
    obtain ⟨h1, h2⟩ := handle_acks s e
    rw [h1, h2, he]
    simp
  · intro s xsurface serial
    rfl
  · obtain ⟨rec, hpre, h1, h2, h3⟩ := wait_configured_acks env.startup (before_wait env)
    obtain ⟨b1, b2⟩ := before_wait_acks env
    simp only [startup_wait]
    refine ⟨env.roundtrip1 ++ env.roundtrip2 ++ rec, ?_, ?_, ?_⟩
    · exact (List.prefix_append_right_inj _).mpr hpre
    · rw [h1, b1, ← configures_append]
    · intro hexit
      refine ⟨h3 hexit, ?_⟩
      have hflag := h3 hexit
      rw [h2, b2] at hflag
      rw [configures_append]
      intro hnil
      have hsplit := List.append_eq_nil.mp hnil
      rw [hsplit.1, hsplit.2] at hflag
      simp at hflag

/-- C3 at the run `env_ok`: its wait loop is left, so the theorem yields that a configure
was received; and a ping neither sets the flag nor sends an ack. -/
theorem configured_only_after_acks_witness :
    (∃ received : List Event,
      acks (startup_wait env_ok).2.trace =
        configures received ∧ configures received ≠ []) ∧
    (handle callbacks {} (.ping none 3)).is_initial_configured = false := by
  obtain ⟨_, h2, _, rec, _, hacks, hexit⟩ := configured_only_after_acks env_ok
  exact ⟨⟨rec, hacks, (hexit (by decide)).2⟩, (h2 {} (.ping none 3) rfl).1⟩

/-! ## The dispatch loop and the Running flag (C7) -/

/-- Handling one message clears `running` exactly when the message is a close. -/
theorem handle_running (s : State) (e : Event) :
    (handle callbacks s e).running = (s.running && !(Event.xtoplevel_close == e)) := by
  cases e
  case global registry name interface version =>
    simp only [handle, rl_global, emit]
    split
    · simp
    · split <;> simp
  case global_remove => simp [handle, rl_global_remove]
  case ping => simp [handle, wbl_ping, emit]
  case xsurface_configure => simp [handle, xsl_configure, emit]
  case xtoplevel_configure width height =>
    simp only [handle, xtl_configure, callbacks, on_resize_eq]
    split <;> simp
  case xtoplevel_close => simp [handle, xtl_close]
  case frame_done callback time =>
    simp only [handle, rcl_done_eq, callbacks, on_redraw_eq]
    simp

/-- Handling a batch clears `running` exactly when the batch holds a close. -/
theorem run_events_running (evs : List Event) (s : State) :
    (run_events callbacks s evs).running = (s.running && !evs.contains Event.xtoplevel_close) := by
  induction evs generalizing s with
  | nil => simp [run_events]
  | cons e rest ih =>
    have hstep : run_events callbacks s (e :: rest) =
        run_events callbacks (handle callbacks s e) rest := rfl
    rw [hstep, ih, handle_running, List.contains_cons]
    cases s.running <;> cases (Event.xtoplevel_close == e) <;>
      cases rest.contains Event.xtoplevel_close <;> rfl

/-- The same for one dispatch call. -/
theorem dispatch_running (evs : List Event) (s : State) :
    (dispatch callbacks evs s).running = (s.running && !evs.contains Event.xtoplevel_close) := by
  rw [dispatch, run_events_running]
  rfl

/-- Why the dispatch loop was left: `running` is false, or a dispatch returned -1
while every earlier one returned something else. -/
theorem main_loop_left (batches : List (List Event × Int)) (s : State)
    (h : (main_loop callbacks s batches).1 = true) :
    (main_loop callbacks s batches).2.running = false ∨
    ∃ pre b post, batches = pre ++ b :: post ∧ b.2 = -1 ∧ ∀ p ∈ pre, p.2 ≠ -1 := by
  induction batches generalizing s with
  | nil =>
    cases hr : s.running
    · left; simp [main_loop, hr]
    · simp [main_loop, hr] at h
  | cons b rest ih =>
    cases hr : s.running
    · left; simp [main_loop, hr]
    · by_cases hb : b.2 = -1
      · exact Or.inr ⟨[], b, rest, rfl, hb, by simp⟩
      · have hw : main_loop callbacks s (b :: rest) =
            main_loop callbacks (dispatch callbacks b.1 s) rest := by
          simp [main_loop, hr, hb]
        rw [hw] at h ⊢
        rcases ih _ h with h1 | ⟨pre, b', post, e1, e2, e3⟩
        · exact Or.inl h1
        · refine Or.inr ⟨b :: pre, b', post, by rw [e1]; rfl, e2, ?_⟩
          intro p hp
          rcases List.mem_cons.mp hp with hp | hp
          · rw [hp]; exact hb
          · exact e3 p hp

/-- When the dispatch loop has not been left, `running` is still true and no dispatch
has returned -1. -/
theorem main_loop_not_left (batches : List (List Event × Int)) (s : State)
    (h : (main_loop callbacks s batches).1 = false) :
    (main_loop callbacks s batches).2.running = true ∧ ∀ b ∈ batches, b.2 ≠ -1 := by
  induction batches generalizing s with
  | nil =>
    cases hr : s.running
    · simp [main_loop, hr] at h
    · simp [main_loop, hr, emit]
  | cons b rest ih =>
    cases hr : s.running
    · simp [main_loop, hr] at h
    · by_cases hb : b.2 = -1
      · simp [main_loop, hr, hb] at h
      · have hw : main_loop callbacks s (b :: rest) =
            main_loop callbacks (dispatch callbacks b.1 s) rest := by
          simp [main_loop, hr, hb]
        rw [hw] at h ⊢
        obtain ⟨h1, h2⟩ := ih _ h
        refine ⟨h1, ?_⟩
        intro p hp
        rcases List.mem_cons.mp hp with hp | hp
        · rw [hp]; exact hb
        · exact h2 p hp

/-- The start-up wait leaves `running` alone when none of its batches holds a close. -/
theorem wait_configured_running (batches : List (List Event)) (s : State)
    (h : ∀ evs ∈ batches, evs.contains Event.xtoplevel_close = false) :
    (wait_configured callbacks s batches).2.running = s.running := by
  induction batches generalizing s with
  | nil => cases hc : s.is_initial_configured <;> simp [wait_configured, hc, emit]
  | cons evs rest ih =>
    cases hc : s.is_initial_configured
    · have hw : wait_configured callbacks s (evs :: rest) =
          wait_configured callbacks (dispatch callbacks evs s) rest := by
        simp [wait_configured, hc]
      rw [hw, ih _ (fun e he => h e (List.mem_cons_of_mem _ he)), dispatch_running,
        h evs (List.mem_cons_self _ _)]
      simp
    · simp [wait_configured, hc]

/-- Context binding never writes `running`. -/
theorem egl_phase_running (env : Env) (s : State) :
    (egl_phase env s).2.running = s.running := by
  simp only [egl_phase, egl_context, egl_window, egl_configure]
  split_ifs <;> simp only [emit_running]

/-- With no close among the messages delivered before the dispatch loop, the loop is
entered with `running` true. -/
theorem loop_entry_running (env : Env)
    (h1 : env.roundtrip1.contains Event.xtoplevel_close = false)
    (h2 : env.roundtrip2.contains Event.xtoplevel_close = false)
    (h3 : env.roundtrip3.contains Event.xtoplevel_close = false)
    (hs : ∀ evs ∈ env.startup, evs.contains Event.xtoplevel_close = false) :
    (loop_entry env).running = true := by
  have hR : ∀ (evs : List Event) (s : State),
      (roundtrip callbacks evs s).running =
        (s.running && !evs.contains Event.xtoplevel_close) := by
    intro evs s
    rw [roundtrip, run_events_running]
    rfl
  have hE : ∀ (c : Call) (s : State), (emit c s).running = s.running := fun _ _ => rfl
  have hb : (before_wait env).running = true := by
    simp only [before_wait, surface_phase, connect_phase, hE, hR, h1, h2]
    rfl
  have hw : (startup_wait env).2.running = true := by
    rw [startup_wait, wait_configured_running _ _ hs, hb]
  have hc : (context_binding env).2.running = true := by
    rw [context_binding, egl_phase_running, hw]
  rw [loop_entry, bootstrap, hR, h3, rcl_done_eq]
  simp only [callbacks, on_redraw_eq, hc]
  rfl

/-- C7, counterexample: when the first `wl_display_dispatch` of the loop returns -1 the
loop is left, and `main` runs to its end, although `running` is still true. -/
theorem main_loop_left_while_running :
    (loop_result env_dispatch_error).1 = true ∧
    (loop_result env_dispatch_error).2.running = true ∧
    (main env_dispatch_error).status = .exited ∧
    (main env_dispatch_error).state.running = true := by
  decide

/-- C7, amended: `running` is true when the loop is entered unless a close was delivered
before, a batch clears it exactly when it holds a close, and the close handler
changes nothing else; once `running` is false at an iteration boundary the loop is
left without another dispatch; and the loop is left if and only if `running` is
false or some `wl_display_dispatch` returned -1 (all earlier ones having returned
something else). -/
theorem main_loop_left_iff (s : State) (batches : List (List Event × Int)) :
    (∀ cb : Callbacks, handle cb s .xtoplevel_close = { s with running := false }) ∧
    (∀ evs : List Event,
      (run_events callbacks s evs).running =
        (s.running && !evs.contains Event.xtoplevel_close)) ∧
    (∀ env : Env,
      (env.roundtrip1 ++ env.roundtrip2 ++ env.roundtrip3 ++
        env.startup.flatten).contains Event.xtoplevel_close = false →
      (loop_entry env).running = true) ∧
    (s.running = false → main_loop callbacks s batches = (true, s)) ∧
    ((main_loop callbacks s batches).1 = true ↔
      ((main_loop callbacks s batches).2.running = false ∨
        ∃ pre b post, batches = pre ++ b :: post ∧ b.2 = -1 ∧ ∀ p ∈ pre, p.2 ≠ -1)) := by
  refine ⟨fun _ => rfl, fun evs => run_events_running evs s, ?_, ?_, ?_⟩
  · intro env h
    have hmem : ∀ evs : List Event,
        (∀ e ∈ evs, e ∈ env.roundtrip1 ++ env.roundtrip2 ++ env.roundtrip3 ++
          env.startup.flatten) → evs.contains Event.xtoplevel_close = false := by
      intro evs hsub
      cases hc : evs.contains Event.xtoplevel_close
      · rfl
      · have hin := hsub _ (List.elem_iff.mp hc)
        have hin2 := List.elem_iff.mpr hin
        exact absurd (hin2.symm.trans h) (by decide)
    refine loop_entry_running env (hmem _ ?_) (hmem _ ?_) (hmem _ ?_) ?_
    · intro e he; simp [he]
    · intro e he; simp [he]
    · intro e he; simp [he]
    · intro evs hevs
      refine hmem _ ?_
      intro e he
      have : e ∈ env.startup.flatten := List.mem_flatten.mpr ⟨evs, hevs, he⟩
      simp [this]
  · intro hr
    cases batches <;> simp [main_loop, hr]
  · constructor
    · exact main_loop_left batches s
    · intro h
      cases hl : (main_loop callbacks s batches).1
      · obtain ⟨h1, h2⟩ := main_loop_not_left batches s hl
        rcases h with h | ⟨pre, b, post, e1, e2, _⟩
        · rw [h1] at h
          exact absurd h (by decide)
        · exact absurd e2 (h2 b (by rw [e1]; simp))
      · rfl

/-- C7 amended, at the loop entry of the run `env_ok`: no close has been delivered, so
`running` is true there; and a closed window leaves the loop untouched. -/
theorem main_loop_left_iff_witness :
    (loop_entry env_ok).running = true ∧
    main_loop callbacks { running := false } env_ok.loop = (true, { running := false }) :=
  ⟨(main_loop_left_iff {} []).2.2.1 env_ok (by decide),
   (main_loop_left_iff { running := false } env_ok.loop).2.2.2.1 rfl⟩

/-! ## Teardown (C4) -/

/-- The calls of `teardown`, in order. -/
theorem teardown_eq (s : State) :
    teardown s =
      { s with
        trace := s.trace ++
          ([.eglMakeCurrent s.egl_display none none none,
            .eglDestroyContext s.egl_display s.egl_context,
            .eglDestroySurface s.egl_display s.egl_surface,
            .wl_egl_window_destroy s.egl_wl_window,
            .eglTerminate s.egl_display,
            .xdg_toplevel_destroy s.xtoplevel,
            .xdg_surface_destroy s.xsurface,
            .wl_surface_destroy s.surface] ++
          ((if s.redraw_callback.isSome then [Call.wl_callback_destroy s.redraw_callback]
            else []) ++
           [.xdg_wm_base_destroy s.wm_base,
            .wl_compositor_destroy s.compositor,
            .wl_registry_destroy s.registry,
            .wl_display_disconnect s.display])) } := by
  cases h : s.redraw_callback <;> simp [teardown, emit, h]

/-- The table `var_created_from` agrees with the run `env_ok`: the pairs created in the
run whose two objects are held by handle variables at the end are exactly the pairs
of the table. -/
theorem var_created_from_agrees :
    (var_created_from.all fun pc =>
      match (main env_ok).state.var pc.1, (main env_ok).state.var pc.2 with
      | some a, some b => ((main env_ok).state.trace.map created_from).flatten.contains (a, b)
      | _, _ => false) = true ∧
    (((main env_ok).state.trace.map created_from).flatten.all fun ab =>
      ab = (.wl_surface, .wl_callback 0) ∨
      var_created_from.any fun pc =>
        (main env_ok).state.var pc.1 = some ab.1 ∧ (main env_ok).state.var pc.2 = some ab.2)
      = true := by
  decide

/-- Recording a call with a positive size, or with none, keeps `geometry_ok`. -/
theorem geometry_ok_emit (c : Call) (s : State) (h : geometry_ok s) (hc : pos_dims c) :
    geometry_ok (emit c s) := by
  refine ⟨h.1, h.2.1, ?_⟩
  intro d hd
  rcases List.mem_append.mp hd with hd | hd
  · exact h.2.2 d hd
  · rw [List.mem_singleton.mp hd]
    exact hc

/-- A storage that has a positive Geometry and whose trace extends, by calls with
positive sizes, the trace of a storage with `geometry_ok`, has `geometry_ok`. -/
theorem geometry_ok_of (s t : State) (cs : List Call) (hs : geometry_ok s)
    (hw : 0 < t.width) (hh : 0 < t.height) (ht : t.trace = s.trace ++ cs)
    (hcs : ∀ c ∈ cs, pos_dims c) : geometry_ok t := by
  refine ⟨hw, hh, ?_⟩
  intro d hd
  rw [ht] at hd
  rcases List.mem_append.mp hd with hd | hd
  · exact hs.2.2 d hd
  · exact hcs d hd

/-- Handling one message keeps `geometry_ok`. -/
theorem geometry_ok_handle (s : State) (e : Event) (h : geometry_ok s) (he : nonneg_event e) :
    geometry_ok (handle callbacks s e) := by
  cases e
  case global registry name interface version =>
    simp only [handle, rl_global]
    split
    · exact geometry_ok_emit _ _ h trivial
    · split
      · exact geometry_ok_emit _ _ h trivial
      · exact h
  case global_remove => exact h
  case ping => exact geometry_ok_emit _ _ h trivial
  case xsurface_configure => exact geometry_ok_emit _ _ h trivial
  case xtoplevel_configure width height =>
    simp only [handle, xtl_configure, callbacks, on_resize_eq]
    split
    · rename_i hg
      simp only [Bool.not_eq_true', Bool.or_eq_false_iff, Bool.and_eq_false_iff,
        beq_eq_false_iff_ne, ne_eq] at hg
      have hw : 0 < width := lt_of_le_of_ne he.1 (Ne.symm hg.1.1)
      have hh : 0 < height := lt_of_le_of_ne he.2 (Ne.symm hg.1.2)
      refine geometry_ok_of s _ _ h hw hh rfl ?_
      simp [pos_dims, hw, hh]
    · exact h
  case xtoplevel_close => exact h
  case frame_done callback time =>
    simp only [handle, rcl_done_eq, callbacks, on_redraw_eq]
    refine geometry_ok_of s _ _ h h.1 h.2.1 (List.append_assoc _ _ _) ?_
    cases callback <;> simp [pos_dims]

/-- Handling a batch keeps `geometry_ok`. -/
theorem geometry_ok_run_events (evs : List Event) (s : State) (h : geometry_ok s)
    (he : ∀ e ∈ evs, nonneg_event e) : geometry_ok (run_events callbacks s evs) := by
  induction evs generalizing s with
  | nil => exact h
  | cons e rest ih =>
    exact ih (handle callbacks s e)
      (geometry_ok_handle s e h (he e (List.mem_cons_self _ _)))
      (fun x hx => he x (List.mem_cons_of_mem _ hx))

/-- One dispatch call keeps `geometry_ok`. -/
theorem geometry_ok_dispatch (evs : List Event) (s : State) (h : geometry_ok s)
    (he : ∀ e ∈ evs, nonneg_event e) : geometry_ok (dispatch callbacks evs s) :=
  geometry_ok_run_events evs _ (geometry_ok_emit _ _ h trivial) he

/-- One round trip keeps `geometry_ok`. -/
theorem geometry_ok_roundtrip (evs : List Event) (s : State) (h : geometry_ok s)
    (he : ∀ e ∈ evs, nonneg_event e) : geometry_ok (roundtrip callbacks evs s) :=
  geometry_ok_run_events evs _ (geometry_ok_emit _ _ h trivial) he

/-- Lines 160-166 keep `geometry_ok`. -/
theorem geometry_ok_surface_phase (s : State) (h : geometry_ok s) :
    geometry_ok (surface_phase s) := by
  unfold surface_phase
  lift_lets
  intro s1 s2 s3 s4 s5
  have g1 : geometry_ok s1 := geometry_ok_emit _ _ h (by trivial)
  have g2 : geometry_ok s2 := geometry_ok_emit _ _ g1 (by trivial)
  have g3 : geometry_ok s3 := geometry_ok_emit _ _ g2 (by trivial)
  have g4 : geometry_ok s4 := geometry_ok_emit _ _ g3 (by trivial)
  have g5 : geometry_ok s5 := geometry_ok_emit _ _ g4 (by trivial)
  exact geometry_ok_emit _ _ g5 (by trivial)

/-- Lines 147-158 keep `geometry_ok`. -/
theorem geometry_ok_connect_phase (env : Env) (s : State) (h : geometry_ok s)
    (h1 : ∀ e ∈ env.roundtrip1, nonneg_event e)
    (h2 : ∀ e ∈ env.roundtrip2, nonneg_event e) :
    geometry_ok (connect_phase callbacks env s) := by
  unfold connect_phase
  lift_lets
  intro s0 s1 s2 s3 s4 s5
  have g0 : geometry_ok s0 := h
  have g1 : geometry_ok s1 := geometry_ok_emit _ _ g0 (by trivial)
  have g2 : geometry_ok s2 := geometry_ok_emit _ _ g1 (by trivial)
  have g3 : geometry_ok s3 := geometry_ok_emit _ _ g2 (by trivial)
  have g4 : geometry_ok s4 := geometry_ok_roundtrip _ _ g3 h1
  have g5 : geometry_ok s5 := geometry_ok_emit _ _ g4 (by trivial)
  exact geometry_ok_roundtrip _ _ g5 h2

/-- The storage at the start of the start-up wait has `geometry_ok`. -/
theorem geometry_ok_before_wait (env : Env) (h1 : ∀ e ∈ env.roundtrip1, nonneg_event e)
    (h2 : ∀ e ∈ env.roundtrip2, nonneg_event e) : geometry_ok (before_wait env) :=
  geometry_ok_surface_phase _
    (geometry_ok_connect_phase env {} ⟨by decide, by decide, by simp⟩ h1 h2)

/-- The start-up wait keeps `geometry_ok`. -/
theorem geometry_ok_wait (batches : List (List Event)) (s : State) (h : geometry_ok s)
    (he : ∀ evs ∈ batches, ∀ e ∈ evs, nonneg_event e) :
    geometry_ok (wait_configured callbacks s batches).2 := by
  induction batches generalizing s with
  | nil =>
    cases hc : s.is_initial_configured
    · simp only [wait_configured, hc, Bool.not_false, if_true]
      exact geometry_ok_emit _ _ h trivial
    · simp only [wait_configured, hc, Bool.not_true, Bool.false_eq_true, if_false]
      exact h
  | cons evs rest ih =>
    cases hc : s.is_initial_configured
    · simp only [wait_configured, hc, Bool.not_false, if_true]
      exact ih _ (geometry_ok_dispatch evs s h (he evs (List.mem_cons_self _ _)))
        (fun b hb => he b (List.mem_cons_of_mem _ hb))
    · simp only [wait_configured, hc, Bool.not_true, Bool.false_eq_true, if_false]
      exact h

/-- Context binding keeps `geometry_ok`: the native window is created with the current,
positive Geometry. -/
theorem geometry_ok_egl_phase (env : Env) (s : State) (h : geometry_ok s) :
    geometry_ok (egl_phase env s).2 := by
  have h1 : geometry_ok (egl_configure env s) := by
    unfold egl_configure
    lift_lets
    intro s1 s2 s3
    have g1 : geometry_ok s1 := geometry_ok_emit _ _ h (by trivial)
    have g2 : geometry_ok s2 := geometry_ok_emit _ _ g1 (by trivial)
    have g3 : geometry_ok s3 := geometry_ok_emit _ _ g2 (by trivial)
    exact geometry_ok_emit _ _ g3 (by trivial)
  have h2 : geometry_ok (egl_window env (egl_configure env s)) := by
    generalize egl_configure env s = t at h1
    unfold egl_window
    lift_lets
    intro s1 surf s2
    have g1 : geometry_ok s1 := geometry_ok_emit _ _ h1 ⟨h1.1, h1.2.1⟩
    have g2 : geometry_ok s2 := geometry_ok_emit _ _ g1 (by trivial)
    exact geometry_ok_emit _ _ g2 (by trivial)
  rw [egl_phase]
  generalize egl_window env (egl_configure env s) = t at h2
  unfold egl_context
  lift_lets
  intro s1 ctx s2 s3 s4
  have g1 : geometry_ok s1 := geometry_ok_emit _ _ h2 (by trivial)
  have g2 : geometry_ok s2 := geometry_ok_emit _ _ g1 (by trivial)
  have g3 : geometry_ok s3 := geometry_ok_emit _ _ g2 (by trivial)
  have g4 : geometry_ok s4 := geometry_ok_emit _ _ g3 (by trivial)
  split_ifs
  · exact g2
  · exact g3
  · exact g4
  · exact g4

/-- The eager first frame and its round trip keep `geometry_ok`. -/
theorem geometry_ok_bootstrap (env : Env) (s : State) (h : geometry_ok s)
    (h3 : ∀ e ∈ env.roundtrip3, nonneg_event e) :
    geometry_ok (bootstrap callbacks env s) :=
  geometry_ok_roundtrip _ _ (geometry_ok_handle s (.frame_done none 0) h trivial) h3

/-- The dispatch loop keeps `geometry_ok`. -/
theorem geometry_ok_main_loop (batches : List (List Event × Int)) (s : State)
    (h : geometry_ok s) (he : ∀ b ∈ batches, ∀ e ∈ b.1, nonneg_event e) :
    geometry_ok (main_loop callbacks s batches).2 := by
  induction batches generalizing s with
  | nil =>
    cases hr : s.running
    · simp only [main_loop, hr, Bool.false_eq_true, if_false]
      exact h
    · simp only [main_loop, hr, if_true]
      exact geometry_ok_emit _ _ h trivial
  | cons b rest ih =>
    have hd := geometry_ok_dispatch b.1 s h (he b (List.mem_cons_self _ _))
    cases hr : s.running
    · simp only [main_loop, hr, Bool.false_eq_true, if_false]
      exact h
    · simp only [main_loop, hr, if_true]
      split
      · exact ih _ hd (fun x hx => he x (List.mem_cons_of_mem _ hx))
      · exact hd

/-- The teardown keeps `geometry_ok`. -/
theorem geometry_ok_teardown (s : State) (h : geometry_ok s) : geometry_ok (teardown s) := by
  rw [teardown_eq]
  refine geometry_ok_of s _ _ h h.1 h.2.1 rfl ?_
  cases s.redraw_callback <;> simp [pos_dims]

/-- With only non-negative sizes received, every stage of a run has `geometry_ok`. -/
theorem geometry_ok_stages (env : Env) (h : env_nonneg env) :
    geometry_ok (startup_wait env).2 ∧ geometry_ok (context_binding env).2 ∧
    geometry_ok (loop_entry env) ∧ geometry_ok (loop_result env).2 := by
  obtain ⟨h1, h2, hs, h3, hl⟩ := h
  have g1 : geometry_ok (startup_wait env).2 :=
    geometry_ok_wait _ _ (geometry_ok_before_wait env h1 h2) hs
  have g2 : geometry_ok (context_binding env).2 := geometry_ok_egl_phase env _ g1
  have g3 : geometry_ok (loop_entry env) := geometry_ok_bootstrap env _ g2 h3
  exact ⟨g1, g2, g3, geometry_ok_main_loop _ _ g3 hl⟩

/-- C10: starting from Geometry (512, 512), after any sequence of messages whose
top-level configures carry non-negative sizes, width and height are strictly
positive; and in every run of `main` receiving only such messages, at whatever point
it stands or ends, width and height are strictly positive and every size passed so
far to `wl_egl_window_create`, `wl_egl_window_resize`, `glViewport` or `glScissor`
is strictly positive. -/
theorem geometry_never_degenerate (env : Env) (evs : List Event)
    (hevs : ∀ e ∈ evs, nonneg_event e) (henv : env_nonneg env) :
    (0 < (run_events callbacks {} evs).width ∧ 0 < (run_events callbacks {} evs).height ∧
      ∀ c ∈ (run_events callbacks {} evs).trace, pos_dims c) ∧
    (0 < (main env).state.width ∧ 0 < (main env).state.height ∧
      ∀ c ∈ (main env).state.trace, pos_dims c) ∧
    ∀ w h (ret : Ptr), Call.wl_egl_window_create (some .wl_surface) w h ret ∈
      (main env).state.trace → 0 < w ∧ 0 < h := by
  have hmain : geometry_ok (main env).state := by
    obtain ⟨g1, g2, _, g4⟩ := geometry_ok_stages env henv
    unfold main
    split_ifs
    · exact g1
    · split
      · exact g2
      · exact g4
    · split
      · exact g2
      · exact geometry_ok_teardown _ g4
  refine ⟨geometry_ok_run_events evs {} ⟨by decide, by decide, by simp⟩ hevs, hmain, ?_⟩
  intro w h ret hc
  exact hmain.2.2 _ hc

/-- C10 at the run `env_ok` and at a resize to 300 x 300 followed by a close. -/
theorem geometry_never_degenerate_witness :
    0 < (run_events callbacks {} [.xtoplevel_configure 300 300, .xtoplevel_close]).width ∧
    0 < (main env_ok).state.height :=
  have h := geometry_never_degenerate env_ok [.xtoplevel_configure 300 300, .xtoplevel_close]
    (by simp [nonneg_event]) (by simp [env_nonneg, env_ok, nonneg_event])
  ⟨h.1.1, h.2.1.2.1⟩

/-! ## Start-up scenario 1 (C8) -/

/-- C8, the code at scenario 1: the wait loop is left after one dispatch with the ack
for serial 7 sent and Geometry (300, 300), and the native window is later created
300 x 300 (call 23 of the trace).  But the resize triggered by the configure runs
`on_resize` inside that first dispatch (calls 16 to 18): `wl_egl_window_resize` is
called on `egl.wl_window`, still null, and `glViewport` and `glScissor` are called
before `gladLoadGLLoader` (call 29) has filled glad's function table. -/
theorem scenario1_resizes_before_window_exists :
    (startup_wait env_scenario1).1 = true ∧
    (startup_wait env_scenario1).2.width = 300 ∧
    (startup_wait env_scenario1).2.height = 300 ∧
    (startup_wait env_scenario1).2.egl_wl_window = none ∧
    (startup_wait env_scenario1).2.gl_loaded = false ∧
    (startup_wait env_scenario1).2.trace = (before_wait env_scenario1).trace ++
      [.wl_display_dispatch (some .wl_display),
       .xdg_surface_ack_configure (some .xdg_surface) 7,
       .wl_egl_window_resize none 300 300 0 0,
       .glViewport false 0 0 300 300,
       .glScissor false 0 0 300 300] ∧
    (main env_scenario1).state.trace.get? 16 = some (.wl_egl_window_resize none 300 300 0 0) ∧
    (main env_scenario1).state.trace.get? 17 = some (.glViewport false 0 0 300 300) ∧
    (main env_scenario1).state.trace.get? 18 = some (.glScissor false 0 0 300 300) ∧
    (main env_scenario1).state.trace.get? 23 =
      some (.wl_egl_window_create (some .wl_surface) 300 300 (some .wl_egl_window)) ∧
    (main env_scenario1).state.trace.get? 29 = some (.gladLoadGLLoader true) := by
  decide

/-! ## Negotiation failures (C6) -/

/-- C6, the code at four failures.  (i) With no `xdg_wm_base` advertised, `main` goes on
and passes the null `wl.core.wm_base` to `xdg_wm_base_add_listener` (call 5) and to
`xdg_wm_base_get_xdg_surface` (call 8).  (ii) With no matching configuration, `main`
goes on, passes the missing `configs[0]` to `eglCreatePlatformWindowSurface` and to
`eglCreateContext`, and stops only at the assert of line 292.  (iii) With
`EGL_NO_SURFACE` returned, `main` goes on, passes it to `eglSurfaceAttrib`,
`eglMakeCurrent` and `eglSwapBuffers`, enters the frame loop and runs to its end.
(iv) With `EGL_NO_CONTEXT` returned, the assert of line 292 stops `main`. -/
theorem negotiation_failures_not_all_fatal :
    ((before_wait env_no_wm_base).wm_base = none ∧
      (before_wait env_no_wm_base).trace.get? 5 =
        some (.xdg_wm_base_add_listener none .wm_base_listener) ∧
      (before_wait env_no_wm_base).trace.get? 8 =
        some (.xdg_wm_base_get_xdg_surface none (some .wl_surface) (some .xdg_surface))) ∧
    (selected_config env_no_config = none ∧
      Call.eglCreatePlatformWindowSurface (some .egl_display) none (some .wl_egl_window) none ∈
        (main env_no_config).state.trace ∧
      Call.eglCreateContext (some .egl_display) none none ∈ (main env_no_config).state.trace ∧
      (main env_no_config).status = .aborted 292) ∧
    ((main env_no_surface).status = .exited ∧
      Call.eglSurfaceAttrib (some .egl_display) none ∈ (main env_no_surface).state.trace ∧
      Call.eglMakeCurrent (some .egl_display) none none (some .egl_context) ∈
        (main env_no_surface).state.trace ∧
      Call.eglSwapBuffers (some .egl_display) none ∈ (main env_no_surface).state.trace) ∧
    (main env_no_context).status = .aborted 292 := by
  decide

end WaylandEgl
